import Mathlib

/-!
# hcloud resource clients: Firewall, Volume, Primary IP update schema

A shallow embedding of `hcloud/firewall.go`, `hcloud/volume.go` and
`hcloud/schema/primary_ip.go`.

Conventions of the embedding.

* A Go pointer `*T` is `Option T`; `nil` is `none`.
* A Go `map[string]string` is `Option Labels`: `none` is the nil map,
  `some []` the allocated empty map.
* Go `int` and `int64` are `Int` (no arithmetic is performed on them here,
  they are only compared with zero and printed).
* A Go `error` is `Option Error`; `nil` is `none`.
* Calls on the underlying `*Client` are recorded in a call trace
  (`Trace B`); every client operation takes the trace so far and
  returns its result together with the extended trace. The outcome of a call
  may depend on the whole trace, so a stateful server is covered.
-/

namespace hcloud

/-! ## Shared data model -/

/-- A Go slice `[]T`; the nil slice is the empty list. -/
abbrev Slice (α : Type) := List α

/-- Entries of a Go `map[string]string`. -/
abbrev Labels := List (String × String)

/-- Go `time.Time`, kept as a number of nanoseconds. -/
structure Time where
  UnixNano : Int
deriving DecidableEq, Repr

/-- Go `net.IPNet`: address and mask bytes. -/
structure IPNet where
  IP : List Nat
  Mask : List Nat
deriving DecidableEq, Repr

/-- Machine readable code of an API error. -/
abbrev ErrorCode := String

/-- Go error values met by the clients: `errors.New(text)` and the API error
of the package (`hcloud.Error`, which carries a code and a message). -/
inductive Error where
  | New (text : String)
  | API (code : ErrorCode) (message : String)
deriving DecidableEq, Repr

/-- Modelled from the spec: the constant `ErrorCodeNotFound` is declared
outside the given sources; the spec asks for "a distinguished `NotFound`
code" carried by transport errors. -/
def ErrorCodeNotFound : ErrorCode := "not_found"

/-- Modelled from the spec: the helper `IsError` is declared outside the given
sources; a transport error "carries a machine-readable code", and `IsError`
tests that code. An error that is not an API error has no code. -/
def IsError (err : Error) (code : ErrorCode) : Bool :=
  match err with
  | Error.API c _ => c == code
  | Error.New _ => false

/-- The `*Response` returned next to every result. -/
structure Response where
  StatusCode : Nat
deriving DecidableEq, Repr

/-- Modelled from the spec: the type `Server` is declared outside the given
sources; only its numeric `ID` is used. -/
structure Server where
  ID : Int
deriving DecidableEq, Repr

/-- Modelled from the spec: the type `Location` is declared outside the given
sources; only `ID` and `Name` are used. -/
structure Location where
  ID : Int
  Name : String
deriving DecidableEq, Repr

/-- Modelled from the spec: the type `ListOpts` is declared outside the given
sources; the fields used are the page number and the page size. -/
structure ListOpts where
  Page : Int
  PerPage : Int
deriving DecidableEq, Repr

/-! ## `url.Values` -/

/-- Go `url.Values`, a `map[string][]string`: a key is either absent or bound
to a list of values. -/
abbrev Values := String → Option (List String)

/-- Go `v[key]`: the values bound to the key, `nil` when the key is absent. -/
def Values.Index (v : Values) (key : String) : List String :=
  (v key).getD []

/-- Go `url.Values.Add`: `v[key] = append(v[key], value)`. -/
def Values.Add (v : Values) (key value : String) : Values :=
  fun k => if k = key then some (Values.Index v key ++ [value]) else v k

/-! ## Transport -/

/-- A built `*http.Request`. -/
structure Request where
  Method : String
  Path : String
  Body : Option (List Nat)
deriving DecidableEq, Repr

/-- One call made on the underlying `*Client`. `B` is the type of the request
body handed to `putRequest`. -/
inductive Call (B : Type) where
  | NewRequest (method path : String) (body : Option (List Nat))
  | Do (req : Request)
  | getRequest (path : String)
  | putRequest (path : String) (body : B)
  | deleteRequestNoResult (path : String)

/-- The calls made so far on the underlying `*Client`, oldest first. -/
abbrev Trace (B : Type) := List (Call B)

/-- The collaborators of a resource client that are declared outside the
given sources, taken as parameters: `json.Marshal` on the request body type
`B`, the methods `NewRequest` and `Do` of `*Client`, and the request helpers
`getRequest`, `putRequest` and `deleteRequestNoResult`. `S` is the response
schema decoded by the call. Every outcome may depend on the calls made
before. -/
structure Client (B S : Type) where
  Marshal : B → Except Error (List Nat)
  NewRequest : Trace B → String → String → Option (List Nat) → Except Error Request
  Do : Trace B → Request → S × Option Response × Option Error
  getRequest : Trace B → String → S × Option Response × Option Error
  putRequest : Trace B → String → B → S × Option Response × Option Error
  deleteRequestNoResult : Trace B → String → Option Response × Option Error

/-! ## Volume -/

/-- Status of a volume. -/
abbrev VolumeStatus := String

/-- Protection level of a volume. -/
structure VolumeProtection where
  Delete : Bool
deriving DecidableEq, Repr

/-- A volume. -/
structure Volume where
  ID : Int
  Name : String
  Status : VolumeStatus
  Server : Option Server
  Location : Option Location
  Size : Int
  Format : Option String
  Protection : VolumeProtection
  Labels : Option Labels
  LinuxDevice : String
  Created : Time
deriving DecidableEq, Repr

/-- Options for listing volumes. -/
structure VolumeListOpts where
  ListOpts : ListOpts
  Name : String
  Status : List VolumeStatus
  Sort_ : List String
deriving DecidableEq, Repr

/-- The method `VolumeListOpts.values` (the field `Sort` is written `Sort_`,
`Sort` being reserved). The method `ListOpts.Values` of the
embedded struct is declared outside the given sources and is the parameter
`ListOptsValues`. -/
def VolumeListOpts.values (ListOptsValues : hcloud.ListOpts → Values) (l : VolumeListOpts) : Values :=
  let vals := ListOptsValues l.ListOpts
  let vals := if l.Name ≠ "" then Values.Add vals "name" l.Name else vals
  let vals := l.Status.foldl (fun v status => Values.Add v "status" status) vals
  let vals := l.Sort_.foldl (fun v sort => Values.Add v "sort" sort) vals
  vals

/-- Parameters for creating a volume. -/
structure VolumeCreateOpts where
  Name : String
  Size : Int
  Server : Option Server
  Location : Option Location
  Labels : Option Labels
  Automount : Option Bool
  Format : Option String
deriving DecidableEq, Repr

/-- The method `VolumeCreateOpts.Validate`. -/
def VolumeCreateOpts.Validate (o : VolumeCreateOpts) : Option Error :=
  if o.Name = "" then
    some (Error.New "missing name")
  else if o.Size ≤ 0 then
    some (Error.New "size must be greater than 0")
  else if o.Server = none ∧ o.Location = none then
    some (Error.New "one of server or location must be provided")
  else if o.Server ≠ none ∧ o.Location ≠ none then
    some (Error.New "only one of server or location must be provided")
  else if o.Server = none ∧ (o.Automount ≠ none ∧ o.Automount = some true) then
    some (Error.New "server must be provided when automount is true")
  else
    none

/-- Wire form `schema.IDOrName`. -/
structure schema.IDOrName where
  ID : Int
  Name : String
deriving DecidableEq, Repr

/-- Wire form `schema.VolumeCreateRequest`; the struct is declared outside the
given sources, the fields and their types are those `VolumeClient.Create`
assigns. `Labels` is a pointer to a map. -/
structure schema.VolumeCreateRequest where
  Name : String
  Size : Int
  Automount : Option Bool
  Format : Option String
  Labels : Option (Option Labels)
  Server : Option Int
  Location : Option schema.IDOrName
deriving DecidableEq, Repr

/-- Wire form `schema.VolumeUpdateRequest`; the fields and their types are
those `VolumeClient.Update` assigns. `Labels` is a pointer to a map. -/
structure schema.VolumeUpdateRequest where
  Name : String
  Labels : Option (Option Labels)
deriving DecidableEq, Repr

/-- Wire form `schema.VolumeGetResponse` over the wire volume type `SV`. -/
structure schema.VolumeGetResponse (SV : Type) where
  Volume : SV

/-- Wire form `schema.VolumeListResponse`. -/
structure schema.VolumeListResponse (SV : Type) where
  Volumes : Slice SV

/-- Wire form `schema.VolumeUpdateResponse`. -/
structure schema.VolumeUpdateResponse (SV : Type) where
  Volume : SV

/-- Wire form `schema.VolumeCreateResponse` over the wire volume type `SV` and
the wire action type `SA`. -/
structure schema.VolumeCreateResponse (SV SA : Type) where
  Volume : SV
  Action : Option SA
  NextActions : Slice SA

/-- Result of creating a volume, over the domain action type `A`. -/
structure VolumeCreateResult (A : Type) where
  Volume : Option Volume
  Action : Option A
  NextActions : Slice (Option A)

/-- The Go zero value `VolumeCreateResult{}`. -/
def VolumeCreateResult.zero {A : Type} : VolumeCreateResult A :=
  { Volume := none, Action := none, NextActions := [] }

/-- The method `VolumeClient.GetByID`. -/
def VolumeClient.GetByID {B SV : Type} (c : Client B (schema.VolumeGetResponse SV))
    (VolumeFromSchema : SV → Option Volume) (id : Int) (trace : Trace B) :
    (Option Volume × Option Response × Option Error) × Trace B :=
  let reqPath := "/volumes/" ++ toString id
  let r := c.getRequest trace reqPath
  let trace := trace ++ [Call.getRequest reqPath]
  match r.2.2 with
  | some err =>
    if IsError err ErrorCodeNotFound then
      ((none, r.2.1, none), trace)
    else
      ((none, r.2.1, some err), trace)
  | none => ((VolumeFromSchema r.1.Volume, r.2.1, none), trace)

/-- The method `VolumeClient.List`. `Encode` is `url.Values.Encode` and
`allFromSchemaFunc` maps the converter over the slice. -/
def VolumeClient.List {B SV : Type} (c : Client B (schema.VolumeListResponse SV))
    (ListOptsValues : ListOpts → Values) (Encode : Values → String)
    (VolumeFromSchema : SV → Option Volume) (opts : VolumeListOpts) (trace : Trace B) :
    (Slice (Option Volume) × Option Response × Option Error) × Trace B :=
  let reqPath := "/volumes?" ++ Encode (VolumeListOpts.values ListOptsValues opts)
  let r := c.getRequest trace reqPath
  let trace := trace ++ [Call.getRequest reqPath]
  match r.2.2 with
  | some err => (([], r.2.1, some err), trace)
  | none => ((r.1.Volumes.map VolumeFromSchema, r.2.1, none), trace)

/-- The request body built by `VolumeClient.Create` (the statements between
the validation and `json.Marshal`). -/
def VolumeClient.Create.reqBody (opts : VolumeCreateOpts) : schema.VolumeCreateRequest :=
  let reqBody : schema.VolumeCreateRequest :=
    { Name := opts.Name, Size := opts.Size, Automount := opts.Automount, Format := opts.Format,
      Labels := none, Server := none, Location := none }
  let reqBody := if opts.Labels ≠ none then { reqBody with Labels := some opts.Labels } else reqBody
  let reqBody :=
    match opts.Server with
    | some server => { reqBody with Server := some server.ID }
    | none => reqBody
  let reqBody :=
    match opts.Location with
    | some location =>
      if location.ID ≠ 0 ∨ location.Name ≠ "" then
        { reqBody with Location := some { ID := location.ID, Name := location.Name } }
      else reqBody
    | none => reqBody
  reqBody

/-- The method `VolumeClient.Create`. -/
def VolumeClient.Create {SV SA A : Type}
    (c : Client schema.VolumeCreateRequest (schema.VolumeCreateResponse SV SA))
    (VolumeFromSchema : SV → Option Volume) (ActionFromSchema : SA → Option A)
    (ActionsFromSchema : Slice SA → Slice (Option A))
    (opts : VolumeCreateOpts) (trace : Trace schema.VolumeCreateRequest) :
    (VolumeCreateResult A × Option Response × Option Error)
      × Trace schema.VolumeCreateRequest :=
  match opts.Validate with
  | some err => ((VolumeCreateResult.zero, none, some err), trace)
  | none =>
    let reqBody := VolumeClient.Create.reqBody opts
    match c.Marshal reqBody with
    | Except.error err => ((VolumeCreateResult.zero, none, some err), trace)
    | Except.ok reqBodyData =>
      let built := c.NewRequest trace "POST" "/volumes" (some reqBodyData)
      let trace := trace ++ [Call.NewRequest "POST" "/volumes" (some reqBodyData)]
      match built with
      | Except.error err => ((VolumeCreateResult.zero, none, some err), trace)
      | Except.ok req =>
        let r := c.Do trace req
        let trace := trace ++ [Call.Do req]
        match r.2.2 with
        | some err => ((VolumeCreateResult.zero, r.2.1, some err), trace)
        | none =>
          let action :=
            match r.1.Action with
            | some a => ActionFromSchema a
            | none => none
          (({ Volume := VolumeFromSchema r.1.Volume, Action := action,
              NextActions := ActionsFromSchema r.1.NextActions }, r.2.1, none), trace)

/-- The method `VolumeClient.Delete`. -/
def VolumeClient.Delete {B S : Type} (c : Client B S) (volume : Volume)
    (trace : Trace B) : (Option Response × Option Error) × Trace B :=
  let reqPath := "/volumes/" ++ toString volume.ID
  (c.deleteRequestNoResult trace reqPath, trace ++ [Call.deleteRequestNoResult reqPath])

/-- Options for updating a volume. -/
structure VolumeUpdateOpts where
  Name : String
  Labels : Option Labels
deriving DecidableEq, Repr

/-- The method `VolumeClient.Update`. -/
def VolumeClient.Update {SV : Type}
    (c : Client schema.VolumeUpdateRequest (schema.VolumeUpdateResponse SV))
    (VolumeFromSchema : SV → Option Volume) (volume : Volume) (opts : VolumeUpdateOpts)
    (trace : Trace schema.VolumeUpdateRequest) :
    (Option Volume × Option Response × Option Error) × Trace schema.VolumeUpdateRequest :=
  let reqBody : schema.VolumeUpdateRequest := { Name := opts.Name, Labels := none }
  let reqBody := if opts.Labels ≠ none then { reqBody with Labels := some opts.Labels } else reqBody
  let reqPath := "/volumes/" ++ toString volume.ID
  let r := c.putRequest trace reqPath reqBody
  let trace := trace ++ [Call.putRequest reqPath reqBody]
  match r.2.2 with
  | some err => ((none, r.2.1, some err), trace)
  | none => ((VolumeFromSchema r.1.Volume, r.2.1, none), trace)

/-! ## Firewall -/

/-- Direction of a firewall rule. -/
abbrev FirewallRuleDirection := String

/-- Protocol of a firewall rule. -/
abbrev FirewallRuleProtocol := String

/-- Kind of resource a firewall is applied to. -/
abbrev FirewallResourceType := String

/-- A rule of a firewall. -/
structure FirewallRule where
  Direction : FirewallRuleDirection
  SourceIPs : Slice IPNet
  DestinationIPs : Slice IPNet
  Protocol : FirewallRuleProtocol
  Port : Option String
  Description : Option String
deriving DecidableEq, Repr

/-- A server a firewall is applied to. -/
structure FirewallResourceServer where
  ID : Int
deriving DecidableEq, Repr

/-- A label selector a firewall is applied to. -/
structure FirewallResourceLabelSelector where
  Selector : String
deriving DecidableEq, Repr

/-- A resource a firewall is applied to (the field `Type` is written `Type_`,
`Type` being reserved). -/
structure FirewallResource where
  Type_ : FirewallResourceType
  Server : Option FirewallResourceServer
  LabelSelector : Option FirewallResourceLabelSelector
deriving DecidableEq, Repr

/-- A firewall. -/
structure Firewall where
  ID : Int
  Name : String
  Labels : Option Labels
  Created : Time
  Rules : Slice FirewallRule
  AppliedTo : Slice FirewallResource
deriving DecidableEq, Repr

/-- Wire form `schema.FirewallGetResponse` over the wire firewall type `SF`. -/
structure schema.FirewallGetResponse (SF : Type) where
  Firewall : SF

/-- Wire form `schema.FirewallListResponse`. -/
structure schema.FirewallListResponse (SF : Type) where
  Firewalls : Slice SF

/-- Wire form `schema.FirewallUpdateResponse`. -/
structure schema.FirewallUpdateResponse (SF : Type) where
  Firewall : SF

/-- Wire form `schema.FirewallCreateResponse` over the wire firewall type `SF`
and the wire action type `SA`. -/
structure schema.FirewallCreateResponse (SF SA : Type) where
  Firewall : SF
  Actions : Slice SA

/-- Wire form `schema.FirewallUpdateRequest`; the struct is declared outside
the given sources, the fields and their types are those
`FirewallClient.Update` assigns: both are pointers. -/
structure schema.FirewallUpdateRequest where
  Name : Option String
  Labels : Option (Option Labels)
deriving DecidableEq, Repr

/-- The method `FirewallClient.GetByID`. -/
def FirewallClient.GetByID {B SF : Type} (c : Client B (schema.FirewallGetResponse SF))
    (FirewallFromSchema : SF → Option Firewall) (id : Int) (trace : Trace B) :
    (Option Firewall × Option Response × Option Error) × Trace B :=
  let reqPath := "/firewalls/" ++ toString id
  let r := c.getRequest trace reqPath
  let trace := trace ++ [Call.getRequest reqPath]
  match r.2.2 with
  | some err =>
    if IsError err ErrorCodeNotFound then
      ((none, r.2.1, none), trace)
    else
      ((none, r.2.1, some err), trace)
  | none => ((FirewallFromSchema r.1.Firewall, r.2.1, none), trace)

/-- Options for listing firewalls. -/
structure FirewallListOpts where
  ListOpts : ListOpts
  Name : String
  Sort_ : Slice String
deriving DecidableEq, Repr

/-- The method `FirewallListOpts.values` (the field `Sort` is written `Sort_`,
`Sort` being reserved). The method `ListOpts.Values` of the embedded struct
is declared outside the given sources and is the parameter
`ListOptsValues`. -/
def FirewallListOpts.values (ListOptsValues : hcloud.ListOpts → Values) (l : FirewallListOpts) :
    Values :=
  let vals := ListOptsValues l.ListOpts
  let vals := if l.Name ≠ "" then Values.Add vals "name" l.Name else vals
  let vals := l.Sort_.foldl (fun v sort => Values.Add v "sort" sort) vals
  vals

/-- The method `FirewallClient.List`. `Encode` is `url.Values.Encode` and
`allFromSchemaFunc` maps the converter over the slice. -/
def FirewallClient.List {B SF : Type} (c : Client B (schema.FirewallListResponse SF))
    (ListOptsValues : ListOpts → Values) (Encode : Values → String)
    (FirewallFromSchema : SF → Option Firewall) (opts : FirewallListOpts) (trace : Trace B) :
    (Slice (Option Firewall) × Option Response × Option Error) × Trace B :=
  let reqPath := "/firewalls?" ++ Encode (FirewallListOpts.values ListOptsValues opts)
  let r := c.getRequest trace reqPath
  let trace := trace ++ [Call.getRequest reqPath]
  match r.2.2 with
  | some err => (([], r.2.1, some err), trace)
  | none => ((r.1.Firewalls.map FirewallFromSchema, r.2.1, none), trace)

/-- Options for creating a firewall. -/
structure FirewallCreateOpts where
  Name : String
  Labels : Option Labels
  Rules : Slice FirewallRule
  ApplyTo : Slice FirewallResource
deriving DecidableEq, Repr

/-- The method `FirewallCreateOpts.Validate`. -/
def FirewallCreateOpts.Validate (o : FirewallCreateOpts) : Option Error :=
  if o.Name = "" then
    some (Error.New "missing name")
  else
    none

/-- Result of creating a firewall, over the domain action type `A`. -/
structure FirewallCreateResult (A : Type) where
  Firewall : Option Firewall
  Actions : Slice (Option A)

/-- The Go zero value `FirewallCreateResult{}`. -/
def FirewallCreateResult.zero {A : Type} : FirewallCreateResult A :=
  { Firewall := none, Actions := [] }

/-- The method `FirewallClient.Create`. The converter
`firewallCreateOptsToSchema` is declared outside the given sources and is a
parameter; `B` is the wire request type it produces. -/
def FirewallClient.Create {B SF SA A : Type}
    (c : Client B (schema.FirewallCreateResponse SF SA))
    (firewallCreateOptsToSchema : FirewallCreateOpts → B)
    (FirewallFromSchema : SF → Option Firewall)
    (ActionsFromSchema : Slice SA → Slice (Option A))
    (opts : FirewallCreateOpts) (trace : Trace B) :
    (FirewallCreateResult A × Option Response × Option Error) × Trace B :=
  match opts.Validate with
  | some err => ((FirewallCreateResult.zero, none, some err), trace)
  | none =>
    let reqBody := firewallCreateOptsToSchema opts
    match c.Marshal reqBody with
    | Except.error err => ((FirewallCreateResult.zero, none, some err), trace)
    | Except.ok reqBodyData =>
      let built := c.NewRequest trace "POST" "/firewalls" (some reqBodyData)
      let trace := trace ++ [Call.NewRequest "POST" "/firewalls" (some reqBodyData)]
      match built with
      | Except.error err => ((FirewallCreateResult.zero, none, some err), trace)
      | Except.ok req =>
        let r := c.Do trace req
        let trace := trace ++ [Call.Do req]
        match r.2.2 with
        | some err => ((FirewallCreateResult.zero, r.2.1, some err), trace)
        | none =>
          (({ Firewall := FirewallFromSchema r.1.Firewall,
              Actions := ActionsFromSchema r.1.Actions }, r.2.1, none), trace)

/-- Options for updating a firewall. -/
structure FirewallUpdateOpts where
  Name : String
  Labels : Option Labels
deriving DecidableEq, Repr

/-- The method `FirewallClient.Update`. -/
def FirewallClient.Update {SF : Type}
    (c : Client schema.FirewallUpdateRequest (schema.FirewallUpdateResponse SF))
    (FirewallFromSchema : SF → Option Firewall) (firewall : Firewall) (opts : FirewallUpdateOpts)
    (trace : Trace schema.FirewallUpdateRequest) :
    (Option Firewall × Option Response × Option Error) × Trace schema.FirewallUpdateRequest :=
  let reqBody : schema.FirewallUpdateRequest := { Name := none, Labels := none }
  let reqBody := if opts.Name ≠ "" then { reqBody with Name := some opts.Name } else reqBody
  let reqBody := if opts.Labels ≠ none then { reqBody with Labels := some opts.Labels } else reqBody
  let reqPath := "/firewalls/" ++ toString firewall.ID
  let r := c.putRequest trace reqPath reqBody
  let trace := trace ++ [Call.putRequest reqPath reqBody]
  match r.2.2 with
  | some err => ((none, r.2.1, some err), trace)
  | none => ((FirewallFromSchema r.1.Firewall, r.2.1, none), trace)

/-- The method `FirewallClient.Delete`. -/
def FirewallClient.Delete {B S : Type} (c : Client B S) (firewall : Firewall)
    (trace : Trace B) : (Option Response × Option Error) × Trace B :=
  let reqPath := "/firewalls/" ++ toString firewall.ID
  (c.deleteRequestNoResult trace reqPath, trace ++ [Call.deleteRequestNoResult reqPath])

/-! ## Primary IP update request -/

/-- Wire form `schema.PrimaryIPUpdateRequest`. `Labels` is a plain map (not a
pointer): `none` is the nil map. -/
structure schema.PrimaryIPUpdateRequest where
  Name : String
  Labels : Option Labels
  AutoDelete : Option Bool
deriving DecidableEq, Repr

/-- A JSON value of one of the kinds the fields of
`schema.PrimaryIPUpdateRequest` encode to. -/
inductive JSONValue where
  | string (s : String)
  | bool (b : Bool)
  | object (members : Labels)
deriving DecidableEq, Repr

/-- The members of an encoded JSON object, in order. -/
abbrev JSONObject := List (String × JSONValue)

/-- The presence test for a key of an encoded JSON object. -/
def JSONObject.hasKey (o : JSONObject) (key : String) : Bool :=
  o.any (fun m => m.1 == key)

/-- The encoding `json.Marshal` gives `schema.PrimaryIPUpdateRequest` under
its field tags `name,omitempty`, `labels,omitempty` and
`auto_delete,omitempty`. By the rule of `encoding/json`, `omitempty` leaves a
field out when it holds an empty value: the empty string, a map of length
zero (nil or allocated), a nil pointer. -/
def schema.PrimaryIPUpdateRequest.MarshalJSON (r : schema.PrimaryIPUpdateRequest) : JSONObject :=
  (if r.Name = "" then [] else [("name", JSONValue.string r.Name)])
    ++ (if (r.Labels.getD []).length = 0 then []
        else [("labels", JSONValue.object (r.Labels.getD []))])
    ++ (match r.AutoDelete with
        | none => []
        | some b => [("auto_delete", JSONValue.bool b)])

/-! ## Full collections and lookup by ID or name -/

/-- Go `strconv.ParseInt(s, 10, 64)`: an optional sign followed by one or more
decimal digits, the value within the range of `int64`; `none` stands for a
non-nil error. -/
def ParseInt (s : String) : Option Int :=
  let cs := s.toList
  let neg : Bool :=
    match cs with
    | '-' :: _ => true
    | _ => false
  let ds : List Char :=
    match cs with
    | '+' :: rest => rest
    | '-' :: rest => rest
    | _ => cs
  if ds = [] ∨ ds.all Char.isDigit = false then none
  else
    let n : Nat := ds.foldl (fun acc c => 10 * acc + (c.toNat - 48)) 0
    let v : Int := if neg then -(n : Int) else (n : Int)
    if -(2 ^ 63 : Int) ≤ v ∧ v < (2 ^ 63 : Int) then some v else none

/-- Modelled from the spec: the helper `getByIDOrName` is declared outside the
given sources. The spec: "attempt to parse `idOrName` as a base-10 integer;
if it parses, call `GetByID`; if parsing fails [...] call `GetByName`". -/
def getByIDOrName {T B : Type}
    (getByID : Int → Trace B → (Option T × Option Response × Option Error) × Trace B)
    (getByName : String → Trace B → (Option T × Option Response × Option Error) × Trace B)
    (idOrName : String) (trace : Trace B) :
    (Option T × Option Response × Option Error) × Trace B :=
  match ParseInt idOrName with
  | some id => getByID id trace
  | none => getByName idOrName trace

/-- A function fetching one page of entities of type `T`, as handed to
`iterPages`. -/
abbrev PageFunc (T B : Type) :=
  Int → Trace B → (Slice (Option T) × Option Response × Option Error) × Trace B

/-- The type of the helper `iterPages`, which is declared outside the given
sources and taken as a parameter. -/
abbrev IterPages (T B : Type) :=
  PageFunc T B → Trace B → (Slice (Option T) × Option Error) × Trace B

/-- The type of the helper `firstByName`, which is declared outside the given
sources and taken as a parameter: it receives the name and the listing
function. -/
abbrev FirstByName (T B : Type) :=
  String → (Trace B → (Slice (Option T) × Option Response × Option Error) × Trace B) →
    Trace B → (Option T × Option Response × Option Error) × Trace B

/-- The options the page function of `VolumeClient.AllWithOpts` hands to
`List`: the statement `opts.Page = page` on the options of the caller. -/
def VolumeClient.AllWithOpts.opts (opts : VolumeListOpts) (page : Int) : VolumeListOpts :=
  { opts with ListOpts := { opts.ListOpts with Page := page } }

/-- The method `VolumeClient.AllWithOpts`. -/
def VolumeClient.AllWithOpts {B SV : Type} (iterPages : IterPages Volume B)
    (c : Client B (schema.VolumeListResponse SV))
    (ListOptsValues : ListOpts → Values) (Encode : Values → String)
    (VolumeFromSchema : SV → Option Volume) (opts : VolumeListOpts) (trace : Trace B) :
    (Slice (Option Volume) × Option Error) × Trace B :=
  iterPages (fun page trace =>
    VolumeClient.List c ListOptsValues Encode VolumeFromSchema
      (VolumeClient.AllWithOpts.opts opts page) trace) trace

/-- The method `VolumeClient.All`. -/
def VolumeClient.All {B SV : Type} (iterPages : IterPages Volume B)
    (c : Client B (schema.VolumeListResponse SV))
    (ListOptsValues : ListOpts → Values) (Encode : Values → String)
    (VolumeFromSchema : SV → Option Volume) (trace : Trace B) :
    (Slice (Option Volume) × Option Error) × Trace B :=
  VolumeClient.AllWithOpts iterPages c ListOptsValues Encode VolumeFromSchema
    { ListOpts := { Page := 0, PerPage := 50 }, Name := "", Status := [], Sort_ := [] } trace

/-- The method `VolumeClient.GetByName`. -/
def VolumeClient.GetByName {B SV : Type} (firstByName : FirstByName Volume B)
    (c : Client B (schema.VolumeListResponse SV))
    (ListOptsValues : ListOpts → Values) (Encode : Values → String)
    (VolumeFromSchema : SV → Option Volume) (name : String) (trace : Trace B) :
    (Option Volume × Option Response × Option Error) × Trace B :=
  firstByName name (fun trace =>
    VolumeClient.List c ListOptsValues Encode VolumeFromSchema
      { ListOpts := { Page := 0, PerPage := 0 }, Name := name, Status := [], Sort_ := [] }
      trace) trace

/-- The method `VolumeClient.Get`. The client appears at the two response
schemas it decodes: `cGet` for `GetByID`, `cList` for `List`. -/
def VolumeClient.Get {B SV : Type} (firstByName : FirstByName Volume B)
    (cGet : Client B (schema.VolumeGetResponse SV))
    (cList : Client B (schema.VolumeListResponse SV))
    (ListOptsValues : ListOpts → Values) (Encode : Values → String)
    (VolumeFromSchema : SV → Option Volume) (idOrName : String) (trace : Trace B) :
    (Option Volume × Option Response × Option Error) × Trace B :=
  getByIDOrName (VolumeClient.GetByID cGet VolumeFromSchema)
    (VolumeClient.GetByName firstByName cList ListOptsValues Encode VolumeFromSchema)
    idOrName trace

/-- The options the page function of `FirewallClient.AllWithOpts` hands to
`List`: the statement `opts.Page = page` on the options of the caller. -/
def FirewallClient.AllWithOpts.opts (opts : FirewallListOpts) (page : Int) : FirewallListOpts :=
  { opts with ListOpts := { opts.ListOpts with Page := page } }

/-- The method `FirewallClient.AllWithOpts`. -/
def FirewallClient.AllWithOpts {B SF : Type} (iterPages : IterPages Firewall B)
    (c : Client B (schema.FirewallListResponse SF))
    (ListOptsValues : ListOpts → Values) (Encode : Values → String)
    (FirewallFromSchema : SF → Option Firewall) (opts : FirewallListOpts) (trace : Trace B) :
    (Slice (Option Firewall) × Option Error) × Trace B :=
  iterPages (fun page trace =>
    FirewallClient.List c ListOptsValues Encode FirewallFromSchema
      (FirewallClient.AllWithOpts.opts opts page) trace) trace

/-- The method `FirewallClient.All`. -/
def FirewallClient.All {B SF : Type} (iterPages : IterPages Firewall B)
    (c : Client B (schema.FirewallListResponse SF))
    (ListOptsValues : ListOpts → Values) (Encode : Values → String)
    (FirewallFromSchema : SF → Option Firewall) (trace : Trace B) :
    (Slice (Option Firewall) × Option Error) × Trace B :=
  FirewallClient.AllWithOpts iterPages c ListOptsValues Encode FirewallFromSchema
    { ListOpts := { Page := 0, PerPage := 50 }, Name := "", Sort_ := [] } trace

/-- The method `FirewallClient.GetByName`. -/
def FirewallClient.GetByName {B SF : Type} (firstByName : FirstByName Firewall B)
    (c : Client B (schema.FirewallListResponse SF))
    (ListOptsValues : ListOpts → Values) (Encode : Values → String)
    (FirewallFromSchema : SF → Option Firewall) (name : String) (trace : Trace B) :
    (Option Firewall × Option Response × Option Error) × Trace B :=
  firstByName name (fun trace =>
    FirewallClient.List c ListOptsValues Encode FirewallFromSchema
      { ListOpts := { Page := 0, PerPage := 0 }, Name := name, Sort_ := [] } trace) trace

/-- The method `FirewallClient.Get`. The client appears at the two response
schemas it decodes: `cGet` for `GetByID`, `cList` for `List`. -/
def FirewallClient.Get {B SF : Type} (firstByName : FirstByName Firewall B)
    (cGet : Client B (schema.FirewallGetResponse SF))
    (cList : Client B (schema.FirewallListResponse SF))
    (ListOptsValues : ListOpts → Values) (Encode : Values → String)
    (FirewallFromSchema : SF → Option Firewall) (idOrName : String) (trace : Trace B) :
    (Option Firewall × Option Response × Option Error) × Trace B :=
  getByIDOrName (FirewallClient.GetByID cGet FirewallFromSchema)
    (FirewallClient.GetByName firstByName cList ListOptsValues Encode FirewallFromSchema)
    idOrName trace

/-! ## Sample inputs -/

/-- A client whose every call answers with the same body, response and error
and whose `json.Marshal` and `NewRequest` succeed. -/
def Client.constant {B S : Type} (body : S) (resp : Option Response) (err : Option Error) :
    Client B S :=
  { Marshal := fun _ => Except.ok []
    NewRequest := fun _ method path data => Except.ok { Method := method, Path := path, Body := data }
    Do := fun _ _ => (body, resp, err)
    getRequest := fun _ _ => (body, resp, err)
    putRequest := fun _ _ _ => (body, resp, err)
    deleteRequestNoResult := fun _ _ => (resp, err) }

/-- Firewall options without a name. -/
def sampleFirewallNoName : FirewallCreateOpts :=
  { Name := "", Labels := none, Rules := [], ApplyTo := [] }

/-- Volume options without a name and with a negative size. -/
def sampleVolumeNoNameNoSize : VolumeCreateOpts :=
  { Name := "", Size := -1, Server := some { ID := 1 }, Location := none, Labels := none,
    Automount := none, Format := none }

/-- Volume options with neither a server nor a location. -/
def sampleVolumeNoPlacement : VolumeCreateOpts :=
  { Name := "data", Size := 10, Server := none, Location := none, Labels := none,
    Automount := none, Format := none }

/-- Volume options with both a server and a location. -/
def sampleVolumeBothPlacements : VolumeCreateOpts :=
  { Name := "data", Size := 10, Server := some { ID := 1 },
    Location := some { ID := 2, Name := "fsn1" }, Labels := none,
    Automount := none, Format := none }

/-- Volume options with a location and automount requested. -/
def sampleVolumeAutomount : VolumeCreateOpts :=
  { Name := "data", Size := 10, Server := none, Location := some { ID := 2, Name := "fsn1" },
    Labels := none, Automount := some true, Format := none }

/-- Volume options with a location and automount switched off. -/
def sampleVolumeNoAutomount : VolumeCreateOpts :=
  { Name := "data", Size := 10, Server := none, Location := some { ID := 2, Name := "fsn1" },
    Labels := none, Automount := some false, Format := none }

/-- The API error a server gives for a missing resource. -/
def sampleNotFound : Error := Error.API "not_found" "resource not found"

/-- An API error that is not the not-found error. -/
def sampleForbidden : Error := Error.API "forbidden" "insufficient permissions"

/-- A firewall with ID 42. -/
def sampleFirewall : Firewall :=
  { ID := 42, Name := "web", Labels := none, Created := { UnixNano := 0 }, Rules := [],
    AppliedTo := [] }

/-- A volume with ID 7. -/
def sampleVolume : Volume :=
  { ID := 7, Name := "data", Status := "available", Server := none,
    Location := some { ID := 2, Name := "fsn1" }, Size := 10, Format := none,
    Protection := { Delete := false }, Labels := none, LinuxDevice := "",
    Created := { UnixNano := 0 } }

/-- A converter from a wire firewall that is just its ID. -/
def sampleFirewallFromSchema (id : Int) : Option Firewall :=
  some { sampleFirewall with ID := id }

/-- A converter from a wire volume that is just its ID. -/
def sampleVolumeFromSchema (id : Int) : Option Volume :=
  some { sampleVolume with ID := id }

/-- Volume options with a location that has neither an ID nor a name. -/
def sampleVolumeZeroLocation : VolumeCreateOpts :=
  { Name := "data", Size := 10, Server := none, Location := some { ID := 0, Name := "" },
    Labels := none, Automount := none, Format := none }

/-- Volume options attached to server 5. -/
def sampleVolumeOnServer : VolumeCreateOpts :=
  { Name := "data", Size := 10, Server := some { ID := 5 }, Location := none,
    Labels := none, Automount := some true, Format := none }

/-- Volume list options with filters and no page size. -/
def sampleVolumeListOpts : VolumeListOpts :=
  { ListOpts := { Page := 0, PerPage := 0 }, Name := "db", Status := ["available"],
    Sort_ := ["name:asc"] }

/-- Firewall list options with filters and no page size. -/
def sampleFirewallListOpts : FirewallListOpts :=
  { ListOpts := { Page := 0, PerPage := 0 }, Name := "web", Sort_ := ["name:asc"] }

/-- A stand-in for `firstByName`: the first entity of the listing, if any. -/
def sampleFirstByName {T B : Type} : FirstByName T B :=
  fun _ list trace =>
    let r := list trace
    match r.1.2.2 with
    | some err => ((none, r.1.2.1, some err), r.2)
    | none => ((r.1.1.head?.join, r.1.2.1, none), r.2)

/-! ## Listing contract: the query parameters added to the base -/

/-- The values the listing contract lets `FirewallListOpts.values` add under a
key: the name under `name` when it is non-empty, the sort keys under `sort`,
nothing under any other key. -/
def FirewallListOpts.added (l : FirewallListOpts) (key : String) : Slice String :=
  if key = "name" then (if l.Name = "" then [] else [l.Name])
  else if key = "sort" then l.Sort_
  else []

/-- The values the listing contract lets `VolumeListOpts.values` add under a
key: the name under `name` when it is non-empty, the statuses under `status`,
the sort keys under `sort`, nothing under any other key. -/
def VolumeListOpts.added (l : VolumeListOpts) (key : String) : Slice String :=
  if key = "name" then (if l.Name = "" then [] else [l.Name])
  else if key = "status" then l.Status
  else if key = "sort" then l.Sort_
  else []

/-! ## Validation before any request -/

/-- C1: for `FirewallClient.Create` and `VolumeClient.Create`, when
`opts.Validate()` returns an error, `Create` returns the zero result, a nil
response and exactly that error, and makes no call on the client: the call
trace is unchanged (no request is built, none is sent). -/
theorem Create_returns_validation_error_without_request
    {B SF SA A SV SA2 A2 : Type}
    (cF : Client B (schema.FirewallCreateResponse SF SA))
    (firewallCreateOptsToSchema : FirewallCreateOpts → B)
    (FirewallFromSchema : SF → Option Firewall)
    (ActionsFromSchemaF : Slice SA → Slice (Option A))
    (optsF : FirewallCreateOpts) (traceF : Trace B)
    (cV : Client schema.VolumeCreateRequest (schema.VolumeCreateResponse SV SA2))
    (VolumeFromSchema : SV → Option Volume) (ActionFromSchema : SA2 → Option A2)
    (ActionsFromSchemaV : Slice SA2 → Slice (Option A2))
    (optsV : VolumeCreateOpts) (traceV : Trace schema.VolumeCreateRequest) :
    (∀ err, optsF.Validate = some err →
      FirewallClient.Create cF firewallCreateOptsToSchema FirewallFromSchema ActionsFromSchemaF
          optsF traceF
        = ((FirewallCreateResult.zero, none, some err), traceF))
    ∧ (∀ err, optsV.Validate = some err →
      VolumeClient.Create cV VolumeFromSchema ActionFromSchema ActionsFromSchemaV optsV traceV
        = ((VolumeCreateResult.zero, none, some err), traceV)) := by
  constructor
  · intro err h
    simp only [FirewallClient.Create, h]
  · intro err h
    simp only [VolumeClient.Create, h]

/-- Witness of C1: a firewall and a volume without a name, against a client
that would answer every call. -/
theorem Create_returns_validation_error_without_request_witness :
    FirewallClient.Create (Client.constant (B := Unit)
        ({ Firewall := (), Actions := [] } : schema.FirewallCreateResponse Unit Unit)
        (some { StatusCode := 201 }) none)
      (fun _ => ()) (fun _ => none) (fun _ => ([] : Slice (Option Unit)))
      sampleFirewallNoName []
      = ((FirewallCreateResult.zero, none, some (Error.New "missing name")), [])
    ∧ VolumeClient.Create (Client.constant
        ({ Volume := (), Action := none, NextActions := [] } :
          schema.VolumeCreateResponse Unit Unit)
        (some { StatusCode := 201 }) none)
      (fun _ => none) (fun _ => (none : Option Unit)) (fun _ => [])
      sampleVolumeNoNameNoSize []
      = ((VolumeCreateResult.zero, none, some (Error.New "missing name")), []) :=
  ⟨(Create_returns_validation_error_without_request _ _ _ _ sampleFirewallNoName []
      (Client.constant
        ({ Volume := (), Action := none, NextActions := [] } :
          schema.VolumeCreateResponse Unit Unit) none none)
      (fun _ => none) (fun _ => (none : Option Unit)) (fun _ => [])
      sampleVolumeNoNameNoSize []).1 _ (by decide),
   (Create_returns_validation_error_without_request
      (Client.constant (B := Unit)
        ({ Firewall := (), Actions := [] } : schema.FirewallCreateResponse Unit Unit) none none)
      (fun _ => ()) (fun _ => none) (fun _ => ([] : Slice (Option Unit)))
      sampleFirewallNoName [] _ _ _ _ sampleVolumeNoNameNoSize []).2 _ (by decide)⟩

/-- C2: `VolumeCreateOpts.Validate` returns nil exactly when the name is
non-empty, the size is positive, exactly one of server and location is set,
and automount set and true implies that the server is set; the labels and the
format have no influence on the result. -/
theorem VolumeCreateOpts_Validate_nil_iff (o : VolumeCreateOpts) :
    (o.Validate = none ↔
      (o.Name ≠ "" ∧ 0 < o.Size
        ∧ ((o.Server ≠ none ∧ o.Location = none) ∨ (o.Server = none ∧ o.Location ≠ none))
        ∧ (o.Automount = some true → o.Server ≠ none)))
    ∧ (∀ (labels : Option Labels) (format : Option String),
        ({ o with Labels := labels, Format := format } : VolumeCreateOpts).Validate
          = o.Validate) := by
  refine ⟨?_, fun _ _ => rfl⟩
  unfold VolumeCreateOpts.Validate
  by_cases hn : o.Name = ""
  · simp [hn]
  by_cases hs : o.Size ≤ 0
  · simp [hn, hs]
  have hs2 : 0 < o.Size := not_le.mp hs
  by_cases hsv : o.Server = none <;> by_cases hl : o.Location = none
    <;> by_cases ha : o.Automount = some true <;> simp [hn, hs, hs2, hsv, hl, ha]

/-- C3: with an empty name and a size that is not positive, `Validate`
reports the name error, whatever the other fields are, and so never the size
error. -/
theorem VolumeCreateOpts_Validate_name_error_first (o : VolumeCreateOpts)
    (hName : o.Name = "") (_hSize : o.Size ≤ 0) :
    o.Validate = some (Error.New "missing name")
    ∧ o.Validate ≠ some (Error.New "size must be greater than 0") := by
  have h : o.Validate = some (Error.New "missing name") := by
    simp [VolumeCreateOpts.Validate, hName]
  refine ⟨h, ?_⟩
  rw [h]
  decide

/-- Witness of C3. -/
theorem VolumeCreateOpts_Validate_name_error_first_witness :
    sampleVolumeNoNameNoSize.Name = "" ∧ sampleVolumeNoNameNoSize.Size ≤ 0
    ∧ sampleVolumeNoNameNoSize.Validate = some (Error.New "missing name")
    ∧ sampleVolumeNoNameNoSize.Validate ≠ some (Error.New "size must be greater than 0") :=
  ⟨by decide, by decide,
    VolumeCreateOpts_Validate_name_error_first sampleVolumeNoNameNoSize (by decide) (by decide)⟩

/-- C4, as stated, fails: with a name and a positive size, neither placement
field set gives the error "one of server or location must be provided", both
set gives "only one of server or location must be provided"; neither is the
error "exactly one of server or location must be provided", and the two
rejections differ. -/
theorem VolumeCreateOpts_Validate_placement_message_counterexample :
    sampleVolumeNoPlacement.Name ≠ "" ∧ 0 < sampleVolumeNoPlacement.Size
    ∧ sampleVolumeNoPlacement.Server = none ∧ sampleVolumeNoPlacement.Location = none
    ∧ sampleVolumeNoPlacement.Validate
        ≠ some (Error.New "exactly one of server or location must be provided")
    ∧ sampleVolumeBothPlacements.Name ≠ "" ∧ 0 < sampleVolumeBothPlacements.Size
    ∧ sampleVolumeBothPlacements.Server ≠ none ∧ sampleVolumeBothPlacements.Location ≠ none
    ∧ sampleVolumeBothPlacements.Validate
        ≠ some (Error.New "exactly one of server or location must be provided")
    ∧ sampleVolumeNoPlacement.Validate ≠ sampleVolumeBothPlacements.Validate := by
  decide

/-- C4, amended: with a non-empty name and a positive size, `Validate`
rejects with "one of server or location must be provided" when neither
server nor location is set and with "only one of server or location must be
provided" when both are set; in both cases `Create` returns that error with
the zero result and a nil response and makes no call on the client. -/
theorem VolumeCreateOpts_Validate_placement_rejected
    {SV SA A : Type}
    (c : Client schema.VolumeCreateRequest (schema.VolumeCreateResponse SV SA))
    (VolumeFromSchema : SV → Option Volume) (ActionFromSchema : SA → Option A)
    (ActionsFromSchema : Slice SA → Slice (Option A))
    (trace : Trace schema.VolumeCreateRequest)
    (o : VolumeCreateOpts) (hName : o.Name ≠ "") (hSize : 0 < o.Size) :
    (o.Server = none ∧ o.Location = none →
      o.Validate = some (Error.New "one of server or location must be provided")
      ∧ VolumeClient.Create c VolumeFromSchema ActionFromSchema ActionsFromSchema o trace
          = ((VolumeCreateResult.zero, none,
              some (Error.New "one of server or location must be provided")), trace))
    ∧ (o.Server ≠ none ∧ o.Location ≠ none →
      o.Validate = some (Error.New "only one of server or location must be provided")
      ∧ VolumeClient.Create c VolumeFromSchema ActionFromSchema ActionsFromSchema o trace
          = ((VolumeCreateResult.zero, none,
              some (Error.New "only one of server or location must be provided")), trace)) := by
  have hs : ¬ o.Size ≤ 0 := not_le.mpr hSize
  constructor
  · rintro ⟨h1, h2⟩
    have hv : o.Validate = some (Error.New "one of server or location must be provided") := by
      simp [VolumeCreateOpts.Validate, hName, hs, h1, h2]
    exact ⟨hv, by simp only [VolumeClient.Create, hv]⟩
  · rintro ⟨h1, h2⟩
    have hv : o.Validate
        = some (Error.New "only one of server or location must be provided") := by
      simp [VolumeCreateOpts.Validate, hName, hs, h1, h2]
    exact ⟨hv, by simp only [VolumeClient.Create, hv]⟩

/-- Witness of the amended C4: one input with neither field, one with both. -/
theorem VolumeCreateOpts_Validate_placement_rejected_witness :
    (sampleVolumeNoPlacement.Validate
        = some (Error.New "one of server or location must be provided")
      ∧ VolumeClient.Create (Client.constant
          ({ Volume := (), Action := none, NextActions := [] } :
            schema.VolumeCreateResponse Unit Unit) (some { StatusCode := 201 }) none)
          (fun _ => none) (fun _ => (none : Option Unit)) (fun _ => [])
          sampleVolumeNoPlacement []
        = ((VolumeCreateResult.zero, none,
            some (Error.New "one of server or location must be provided")), []))
    ∧ (sampleVolumeBothPlacements.Validate
        = some (Error.New "only one of server or location must be provided")
      ∧ VolumeClient.Create (Client.constant
          ({ Volume := (), Action := none, NextActions := [] } :
            schema.VolumeCreateResponse Unit Unit) (some { StatusCode := 201 }) none)
          (fun _ => none) (fun _ => (none : Option Unit)) (fun _ => [])
          sampleVolumeBothPlacements []
        = ((VolumeCreateResult.zero, none,
            some (Error.New "only one of server or location must be provided")), [])) :=
  ⟨(VolumeCreateOpts_Validate_placement_rejected _ _ _ _ [] sampleVolumeNoPlacement
      (by decide) (by decide)).1 ⟨rfl, rfl⟩,
   (VolumeCreateOpts_Validate_placement_rejected _ _ _ _ [] sampleVolumeBothPlacements
      (by decide) (by decide)).2 ⟨by decide, by decide⟩⟩

/-- C5: with a non-empty name, a positive size, no server and a location,
`Validate` returns "server must be provided when automount is true" when
automount is set and true, and nil when automount is unset or false. -/
theorem VolumeCreateOpts_Validate_automount (o : VolumeCreateOpts)
    (hName : o.Name ≠ "") (hSize : 0 < o.Size) (hServer : o.Server = none)
    (hLocation : o.Location ≠ none) :
    (o.Automount = some true →
      o.Validate = some (Error.New "server must be provided when automount is true"))
    ∧ (o.Automount = none ∨ o.Automount = some false → o.Validate = none) := by
  have hs : ¬ o.Size ≤ 0 := not_le.mpr hSize
  constructor
  · intro ha
    simp [VolumeCreateOpts.Validate, hName, hs, hServer, hLocation, ha]
  · intro ha
    rcases ha with ha | ha <;>
      simp [VolumeCreateOpts.Validate, hName, hs, hServer, hLocation, ha]

/-- Witness of C5: automount true is rejected, automount false is accepted. -/
theorem VolumeCreateOpts_Validate_automount_witness :
    sampleVolumeAutomount.Validate
        = some (Error.New "server must be provided when automount is true")
    ∧ sampleVolumeNoAutomount.Validate = none :=
  ⟨(VolumeCreateOpts_Validate_automount sampleVolumeAutomount
      (by decide) (by decide) rfl (by decide)).1 rfl,
   (VolumeCreateOpts_Validate_automount sampleVolumeNoAutomount
      (by decide) (by decide) rfl (by decide)).2 (Or.inr rfl)⟩

/-! ## Labels in update requests -/

/-- C6: `FirewallClient.Update` and `VolumeClient.Update` hand exactly one
request body to `putRequest`, and its labels field is set exactly when
`opts.Labels` is non-nil, then pointing to that same map. An allocated empty
map gives a body with labels present and empty, a nil map gives a body
without labels, and the two bodies (hence the two traces) differ. -/
theorem Update_request_carries_labels_iff_set {SF SV : Type}
    (cF : Client schema.FirewallUpdateRequest (schema.FirewallUpdateResponse SF))
    (FirewallFromSchema : SF → Option Firewall) (firewall : Firewall)
    (optsF : FirewallUpdateOpts) (traceF : Trace schema.FirewallUpdateRequest)
    (cV : Client schema.VolumeUpdateRequest (schema.VolumeUpdateResponse SV))
    (VolumeFromSchema : SV → Option Volume) (volume : Volume)
    (optsV : VolumeUpdateOpts) (traceV : Trace schema.VolumeUpdateRequest) :
    (∃ body : schema.FirewallUpdateRequest,
      (FirewallClient.Update cF FirewallFromSchema firewall optsF traceF).2
        = traceF ++ [Call.putRequest ("/firewalls/" ++ toString firewall.ID) body]
      ∧ body.Labels = Option.map some optsF.Labels)
    ∧ (∃ body : schema.VolumeUpdateRequest,
      (VolumeClient.Update cV VolumeFromSchema volume optsV traceV).2
        = traceV ++ [Call.putRequest ("/volumes/" ++ toString volume.ID) body]
      ∧ body.Labels = Option.map some optsV.Labels)
    ∧ (∀ name : String,
      (FirewallClient.Update cF FirewallFromSchema firewall
          { Name := name, Labels := some [] } traceF).2
        ≠ (FirewallClient.Update cF FirewallFromSchema firewall
          { Name := name, Labels := none } traceF).2)
    ∧ (∀ name : String,
      (VolumeClient.Update cV VolumeFromSchema volume
          { Name := name, Labels := some [] } traceV).2
        ≠ (VolumeClient.Update cV VolumeFromSchema volume
          { Name := name, Labels := none } traceV).2) := by
  have hF : ∀ o : FirewallUpdateOpts,
      (FirewallClient.Update cF FirewallFromSchema firewall o traceF).2
        = traceF ++ [Call.putRequest ("/firewalls/" ++ toString firewall.ID)
            { Name := if o.Name ≠ "" then some o.Name else none,
              Labels := Option.map some o.Labels }] := by
    intro o
    unfold FirewallClient.Update
    rcases o with ⟨n, l⟩
    cases l <;> by_cases hn : n = "" <;> simp [hn] <;> split <;> rfl
  have hV : ∀ o : VolumeUpdateOpts,
      (VolumeClient.Update cV VolumeFromSchema volume o traceV).2
        = traceV ++ [Call.putRequest ("/volumes/" ++ toString volume.ID)
            { Name := o.Name, Labels := Option.map some o.Labels }] := by
    intro o
    unfold VolumeClient.Update
    rcases o with ⟨n, l⟩
    cases l <;> simp <;> split <;> rfl
  refine ⟨⟨_, hF optsF, rfl⟩, ⟨_, hV optsV, rfl⟩, ?_, ?_⟩
  · intro name h
    rw [hF, hF] at h
    have h2 := List.append_cancel_left h
    simp at h2
  · intro name h
    rw [hV, hV] at h
    have h2 := List.append_cancel_left h
    simp at h2

/-- C7, on the code: under the declared tags the Primary IP update request
with an allocated empty labels map encodes exactly as the one with a nil
labels map, and the encoding has no `labels` member; the two payloads the
claim requires to differ are equal. -/
theorem PrimaryIPUpdateRequest_empty_labels_encoded_as_absent
    (name : String) (autoDelete : Option Bool) :
    schema.PrimaryIPUpdateRequest.MarshalJSON
        { Name := name, Labels := some [], AutoDelete := autoDelete }
      = schema.PrimaryIPUpdateRequest.MarshalJSON
        { Name := name, Labels := none, AutoDelete := autoDelete }
    ∧ JSONObject.hasKey (schema.PrimaryIPUpdateRequest.MarshalJSON
        { Name := name, Labels := some [], AutoDelete := autoDelete }) "labels" = false := by
  refine ⟨rfl, ?_⟩
  cases autoDelete <;> by_cases hn : name = "" <;>
    simp [schema.PrimaryIPUpdateRequest.MarshalJSON, JSONObject.hasKey, hn]

/-! ## Not found: suppressed by `GetByID`, surfaced by `Delete` -/

/-- C8: `FirewallClient.GetByID` and `VolumeClient.GetByID` make exactly one
call, `getRequest` on `/firewalls/<id>` (resp. `/volumes/<id>`). When that
call fails with the not-found code the result is a nil entity, the response
of the call and a nil error; when it fails with any other error the result
is a nil entity, the response and that same error; when it succeeds the
result is the entity converted from the response body, the response and a
nil error. -/
theorem GetByID_contract {BF SF BV SV : Type}
    (cF : Client BF (schema.FirewallGetResponse SF))
    (FirewallFromSchema : SF → Option Firewall) (traceF : Trace BF)
    (cV : Client BV (schema.VolumeGetResponse SV))
    (VolumeFromSchema : SV → Option Volume) (traceV : Trace BV) (id : Int) :
    ((FirewallClient.GetByID cF FirewallFromSchema id traceF).2
        = traceF ++ [Call.getRequest ("/firewalls/" ++ toString id)]
      ∧ (∀ err, (cF.getRequest traceF ("/firewalls/" ++ toString id)).2.2 = some err →
          IsError err ErrorCodeNotFound = true →
          (FirewallClient.GetByID cF FirewallFromSchema id traceF).1
            = (none, (cF.getRequest traceF ("/firewalls/" ++ toString id)).2.1, none))
      ∧ (∀ err, (cF.getRequest traceF ("/firewalls/" ++ toString id)).2.2 = some err →
          IsError err ErrorCodeNotFound = false →
          (FirewallClient.GetByID cF FirewallFromSchema id traceF).1
            = (none, (cF.getRequest traceF ("/firewalls/" ++ toString id)).2.1, some err))
      ∧ ((cF.getRequest traceF ("/firewalls/" ++ toString id)).2.2 = none →
          (FirewallClient.GetByID cF FirewallFromSchema id traceF).1
            = (FirewallFromSchema
                (cF.getRequest traceF ("/firewalls/" ++ toString id)).1.Firewall,
               (cF.getRequest traceF ("/firewalls/" ++ toString id)).2.1, none)))
    ∧ ((VolumeClient.GetByID cV VolumeFromSchema id traceV).2
        = traceV ++ [Call.getRequest ("/volumes/" ++ toString id)]
      ∧ (∀ err, (cV.getRequest traceV ("/volumes/" ++ toString id)).2.2 = some err →
          IsError err ErrorCodeNotFound = true →
          (VolumeClient.GetByID cV VolumeFromSchema id traceV).1
            = (none, (cV.getRequest traceV ("/volumes/" ++ toString id)).2.1, none))
      ∧ (∀ err, (cV.getRequest traceV ("/volumes/" ++ toString id)).2.2 = some err →
          IsError err ErrorCodeNotFound = false →
          (VolumeClient.GetByID cV VolumeFromSchema id traceV).1
            = (none, (cV.getRequest traceV ("/volumes/" ++ toString id)).2.1, some err))
      ∧ ((cV.getRequest traceV ("/volumes/" ++ toString id)).2.2 = none →
          (VolumeClient.GetByID cV VolumeFromSchema id traceV).1
            = (VolumeFromSchema
                (cV.getRequest traceV ("/volumes/" ++ toString id)).1.Volume,
               (cV.getRequest traceV ("/volumes/" ++ toString id)).2.1, none))) := by
  refine ⟨⟨?_, ?_, ?_, ?_⟩, ⟨?_, ?_, ?_, ?_⟩⟩
  · unfold FirewallClient.GetByID
    dsimp only
    split
    · split <;> rfl
    · rfl
  · intro err h hnf
    simp only [FirewallClient.GetByID, h, hnf, if_true]
  · intro err h hnf
    simp only [FirewallClient.GetByID, h, hnf, Bool.false_eq_true, if_false]
  · intro h
    simp only [FirewallClient.GetByID, h]
  · unfold VolumeClient.GetByID
    dsimp only
    split
    · split <;> rfl
    · rfl
  · intro err h hnf
    simp only [VolumeClient.GetByID, h, hnf, if_true]
  · intro err h hnf
    simp only [VolumeClient.GetByID, h, hnf, Bool.false_eq_true, if_false]
  · intro h
    simp only [VolumeClient.GetByID, h]

/-- Witness of C8: a firewall lookup answered with not-found, a firewall
lookup answered with another error, a firewall lookup and a volume lookup that
succeed, a volume lookup answered with not-found. -/
theorem GetByID_contract_witness :
    (FirewallClient.GetByID (Client.constant (B := Unit)
          ({ Firewall := 0 } : schema.FirewallGetResponse Int)
          (some { StatusCode := 404 }) (some sampleNotFound))
        sampleFirewallFromSchema 42 []).1
      = (none, some { StatusCode := 404 }, none)
    ∧ (FirewallClient.GetByID (Client.constant (B := Unit)
          ({ Firewall := 0 } : schema.FirewallGetResponse Int)
          (some { StatusCode := 403 }) (some sampleForbidden))
        sampleFirewallFromSchema 42 []).1
      = (none, some { StatusCode := 403 }, some sampleForbidden)
    ∧ (FirewallClient.GetByID (Client.constant (B := Unit)
          ({ Firewall := 42 } : schema.FirewallGetResponse Int)
          (some { StatusCode := 200 }) none)
        sampleFirewallFromSchema 42 []).1
      = (some sampleFirewall, some { StatusCode := 200 }, none)
    ∧ (VolumeClient.GetByID (Client.constant (B := Unit)
          ({ Volume := 0 } : schema.VolumeGetResponse Int)
          (some { StatusCode := 404 }) (some sampleNotFound))
        sampleVolumeFromSchema 7 []).1
      = (none, some { StatusCode := 404 }, none)
    ∧ (VolumeClient.GetByID (Client.constant (B := Unit)
          ({ Volume := 7 } : schema.VolumeGetResponse Int)
          (some { StatusCode := 200 }) none)
        sampleVolumeFromSchema 7 []).1
      = (some sampleVolume, some { StatusCode := 200 }, none) :=
  ⟨(GetByID_contract
      (Client.constant (B := Unit) ({ Firewall := 0 } : schema.FirewallGetResponse Int)
        (some { StatusCode := 404 }) (some sampleNotFound))
      sampleFirewallFromSchema []
      (Client.constant (B := Unit) ({ Volume := 0 } : schema.VolumeGetResponse Int)
        (some { StatusCode := 404 }) (some sampleNotFound))
      sampleVolumeFromSchema [] 42).1.2.1 sampleNotFound rfl (by decide),
   (GetByID_contract
      (Client.constant (B := Unit) ({ Firewall := 0 } : schema.FirewallGetResponse Int)
        (some { StatusCode := 403 }) (some sampleForbidden))
      sampleFirewallFromSchema []
      (Client.constant (B := Unit) ({ Volume := 0 } : schema.VolumeGetResponse Int)
        (some { StatusCode := 404 }) (some sampleNotFound))
      sampleVolumeFromSchema [] 42).1.2.2.1 sampleForbidden rfl (by decide),
   (GetByID_contract
      (Client.constant (B := Unit) ({ Firewall := 42 } : schema.FirewallGetResponse Int)
        (some { StatusCode := 200 }) none)
      sampleFirewallFromSchema []
      (Client.constant (B := Unit) ({ Volume := 0 } : schema.VolumeGetResponse Int)
        (some { StatusCode := 404 }) (some sampleNotFound))
      sampleVolumeFromSchema [] 42).1.2.2.2 rfl,
   (GetByID_contract
      (Client.constant (B := Unit) ({ Firewall := 0 } : schema.FirewallGetResponse Int)
        (some { StatusCode := 404 }) (some sampleNotFound))
      sampleFirewallFromSchema []
      (Client.constant (B := Unit) ({ Volume := 0 } : schema.VolumeGetResponse Int)
        (some { StatusCode := 404 }) (some sampleNotFound))
      sampleVolumeFromSchema [] 7).2.2.1 sampleNotFound rfl (by decide),
   (GetByID_contract
      (Client.constant (B := Unit) ({ Firewall := 0 } : schema.FirewallGetResponse Int)
        (some { StatusCode := 404 }) (some sampleNotFound))
      sampleFirewallFromSchema []
      (Client.constant (B := Unit) ({ Volume := 7 } : schema.VolumeGetResponse Int)
        (some { StatusCode := 200 }) none)
      sampleVolumeFromSchema [] 7).2.2.2.2 rfl⟩

/-- C9: `FirewallClient.Delete` and `VolumeClient.Delete` make exactly one
call, `deleteRequestNoResult` on `/firewalls/<id>` (resp. `/volumes/<id>`),
and return its response and error unchanged; when that call reports an
error, the not-found error included, `Delete` returns that same non-nil
error. -/
theorem Delete_returns_transport_outcome {BF SF BV SV : Type}
    (cF : Client BF SF) (firewall : Firewall) (traceF : Trace BF)
    (cV : Client BV SV) (volume : Volume) (traceV : Trace BV) :
    (FirewallClient.Delete cF firewall traceF
        = (cF.deleteRequestNoResult traceF ("/firewalls/" ++ toString firewall.ID),
           traceF ++ [Call.deleteRequestNoResult ("/firewalls/" ++ toString firewall.ID)])
      ∧ (∀ err, (cF.deleteRequestNoResult traceF
            ("/firewalls/" ++ toString firewall.ID)).2 = some err →
          IsError err ErrorCodeNotFound = true →
          (FirewallClient.Delete cF firewall traceF).1.2 = some err
          ∧ (FirewallClient.Delete cF firewall traceF).1.2 ≠ none))
    ∧ (VolumeClient.Delete cV volume traceV
        = (cV.deleteRequestNoResult traceV ("/volumes/" ++ toString volume.ID),
           traceV ++ [Call.deleteRequestNoResult ("/volumes/" ++ toString volume.ID)])
      ∧ (∀ err, (cV.deleteRequestNoResult traceV
            ("/volumes/" ++ toString volume.ID)).2 = some err →
          IsError err ErrorCodeNotFound = true →
          (VolumeClient.Delete cV volume traceV).1.2 = some err
          ∧ (VolumeClient.Delete cV volume traceV).1.2 ≠ none)) := by
  refine ⟨⟨rfl, ?_⟩, ⟨rfl, ?_⟩⟩
  · intro err h _
    have h2 : (FirewallClient.Delete cF firewall traceF).1.2 = some err := h
    exact ⟨h2, by rw [h2]; exact Option.some_ne_none err⟩
  · intro err h _
    have h2 : (VolumeClient.Delete cV volume traceV).1.2 = some err := h
    exact ⟨h2, by rw [h2]; exact Option.some_ne_none err⟩

/-- Witness of C9: deleting a firewall and a volume the server does not
know. -/
theorem Delete_returns_transport_outcome_witness :
    ((FirewallClient.Delete (Client.constant (B := Unit) ()
          (some { StatusCode := 404 }) (some sampleNotFound)) sampleFirewall []).1.2
        = some sampleNotFound
      ∧ (FirewallClient.Delete (Client.constant (B := Unit) ()
          (some { StatusCode := 404 }) (some sampleNotFound)) sampleFirewall []).1.2 ≠ none)
    ∧ ((VolumeClient.Delete (Client.constant (B := Unit) ()
          (some { StatusCode := 404 }) (some sampleNotFound)) sampleVolume []).1.2
        = some sampleNotFound
      ∧ (VolumeClient.Delete (Client.constant (B := Unit) ()
          (some { StatusCode := 404 }) (some sampleNotFound)) sampleVolume []).1.2 ≠ none) :=
  ⟨(Delete_returns_transport_outcome
      (Client.constant (B := Unit) () (some { StatusCode := 404 }) (some sampleNotFound))
      sampleFirewall []
      (Client.constant (B := Unit) () (some { StatusCode := 404 }) (some sampleNotFound))
      sampleVolume []).1.2 sampleNotFound rfl (by decide),
   (Delete_returns_transport_outcome
      (Client.constant (B := Unit) () (some { StatusCode := 404 }) (some sampleNotFound))
      sampleFirewall []
      (Client.constant (B := Unit) () (some { StatusCode := 404 }) (some sampleNotFound))
      sampleVolume []).2.2 sampleNotFound rfl (by decide)⟩

/-! ## Query parameters of the list options -/

/-- Adding a list of values under one key, one `Add` per value in order:
nothing changes for an empty list, otherwise the key holds its former values
followed by the list, and every other key is untouched. -/
theorem Values.foldl_Add (xs : List String) (v : Values) (key k : String) :
    (xs.foldl (fun w x => Values.Add w key x) v) k
      = if k = key then (if xs = [] then v k else some (Values.Index v key ++ xs)) else v k := by
  induction xs generalizing v with
  | nil => simp
  | cons x xs ih =>
    rw [List.foldl_cons, ih]
    by_cases hk : k = key
    · subst hk
      by_cases hxs : xs = []
      · simp [hxs, Values.Add]
      · simp [hxs, Values.Add, Values.Index]
    · simp [hk, Values.Add]

/-- The same for the values read with `Values.Index`. -/
theorem Values.Index_foldl_Add (xs : List String) (v : Values) (key k : String) :
    Values.Index (xs.foldl (fun w x => Values.Add w key x) v) k
      = if k = key then Values.Index v k ++ xs else Values.Index v k := by
  unfold Values.Index
  rw [Values.foldl_Add]
  by_cases hk : k = key
  · subst hk
    by_cases hxs : xs = []
    · simp [hxs]
    · simp [hxs, Values.Index]
  · simp [hk]

/-- One `Add`, read at any key. -/
theorem Values.Add_apply (v : Values) (key value k : String) :
    Values.Add v key value k
      = if k = key then some (Values.Index v key ++ [value]) else v k := rfl

/-- C10: for every key, the `url.Values` of `FirewallListOpts.values` and of
`VolumeListOpts.values` bind the key exactly as the embedded
`ListOpts.Values()` does when the options add nothing under it, and
otherwise to the former values followed by the added ones, where the added
values are: under `name` the name alone when it is non-empty, under `status`
the statuses in order (Volume only), under `sort` the sort keys in order, and
nothing under any other key. An empty name, status list or sort list leaves
its key as it was. -/
theorem ListOpts_values_extend_base (ListOptsValues : ListOpts → Values)
    (lF : FirewallListOpts) (lV : VolumeListOpts) (key : String) :
    (FirewallListOpts.values ListOptsValues lF key
      = if FirewallListOpts.added lF key = [] then ListOptsValues lF.ListOpts key
        else some (Values.Index (ListOptsValues lF.ListOpts) key
                    ++ FirewallListOpts.added lF key))
    ∧ (VolumeListOpts.values ListOptsValues lV key
      = if VolumeListOpts.added lV key = [] then ListOptsValues lV.ListOpts key
        else some (Values.Index (ListOptsValues lV.ListOpts) key
                    ++ VolumeListOpts.added lV key)) := by
  have hns : ("name" : String) ≠ "sort" := by decide
  have hnt : ("name" : String) ≠ "status" := by decide
  have hts : ("status" : String) ≠ "sort" := by decide
  constructor
  · unfold FirewallListOpts.values FirewallListOpts.added
    simp only [Values.foldl_Add]
    by_cases hs : key = "sort"
    · subst hs
      by_cases hn : lF.Name = "" <;> by_cases hx : lF.Sort_ = [] <;>
        simp [hn, hx, Values.Add_apply, Values.Index, hns.symm]
    · by_cases hk : key = "name"
      · subst hk
        by_cases hn : lF.Name = "" <;> simp [hn, Values.Add_apply, hns]
      · by_cases hn : lF.Name = "" <;> simp [hn, hs, hk, Values.Add_apply]
  · unfold VolumeListOpts.values VolumeListOpts.added
    simp only [Values.foldl_Add, Values.Index_foldl_Add]
    by_cases hs : key = "sort"
    · subst hs
      by_cases hn : lV.Name = "" <;> by_cases hx : lV.Sort_ = [] <;>
        simp [hn, hx, Values.Add_apply, Values.Index, hns.symm, hts.symm]
    · by_cases ht : key = "status"
      · subst ht
        by_cases hn : lV.Name = "" <;> by_cases hx : lV.Status = [] <;>
          simp [hn, hx, Values.Add_apply, Values.Index, hnt.symm, hts]
      · by_cases hk : key = "name"
        · subst hk
          by_cases hn : lV.Name = "" <;> simp [hn, Values.Add_apply, hns, hnt]
        · by_cases hn : lV.Name = "" <;> simp [hn, hs, ht, hk, Values.Add_apply]

/-! ## Page fetches of `AllWithOpts` -/

/-- C11, as stated, fails: with a page size left at 0 the options
`AllWithOpts` hands to `List` for page 1 still have page size 0, for
firewalls and for volumes, not the default 50. -/
theorem AllWithOpts_page_size_default_counterexample :
    sampleFirewallListOpts.ListOpts.PerPage = 0
    ∧ (FirewallClient.AllWithOpts.opts sampleFirewallListOpts 1).ListOpts.PerPage = 0
    ∧ (FirewallClient.AllWithOpts.opts sampleFirewallListOpts 1).ListOpts.PerPage ≠ 50
    ∧ sampleVolumeListOpts.ListOpts.PerPage = 0
    ∧ (VolumeClient.AllWithOpts.opts sampleVolumeListOpts 1).ListOpts.PerPage = 0
    ∧ (VolumeClient.AllWithOpts.opts sampleVolumeListOpts 1).ListOpts.PerPage ≠ 50 := by
  decide

/-- C11, amended: `AllWithOpts` hands `iterPages` a page function that, for
every requested page, is one `List` call whose options carry that page
number and the page size, name, status and sort of the caller unchanged (a
page size of 0 stays 0); that call is one `getRequest` on the encoded
options. The page size 50 is supplied by `All`, which calls `AllWithOpts`
with page size 50 and no filter. -/
theorem AllWithOpts_page_fetch_options {BF SF BV SV : Type}
    (iterPagesF : IterPages Firewall BF) (cF : Client BF (schema.FirewallListResponse SF))
    (FirewallFromSchema : SF → Option Firewall) (optsF : FirewallListOpts) (traceF : Trace BF)
    (iterPagesV : IterPages Volume BV) (cV : Client BV (schema.VolumeListResponse SV))
    (VolumeFromSchema : SV → Option Volume) (optsV : VolumeListOpts) (traceV : Trace BV)
    (ListOptsValues : ListOpts → Values) (Encode : Values → String) (page : Int) :
    (FirewallClient.AllWithOpts iterPagesF cF ListOptsValues Encode FirewallFromSchema
          optsF traceF
        = iterPagesF (fun p tr =>
            FirewallClient.List cF ListOptsValues Encode FirewallFromSchema
              { ListOpts := { Page := p, PerPage := optsF.ListOpts.PerPage },
                Name := optsF.Name, Sort_ := optsF.Sort_ } tr) traceF
      ∧ FirewallClient.AllWithOpts.opts optsF page
        = { ListOpts := { Page := page, PerPage := optsF.ListOpts.PerPage },
            Name := optsF.Name, Sort_ := optsF.Sort_ }
      ∧ (FirewallClient.List cF ListOptsValues Encode FirewallFromSchema
            (FirewallClient.AllWithOpts.opts optsF page) traceF).2
        = traceF ++ [Call.getRequest ("/firewalls?" ++ Encode
            (FirewallListOpts.values ListOptsValues
              { ListOpts := { Page := page, PerPage := optsF.ListOpts.PerPage },
                Name := optsF.Name, Sort_ := optsF.Sort_ }))]
      ∧ FirewallClient.All iterPagesF cF ListOptsValues Encode FirewallFromSchema traceF
        = iterPagesF (fun p tr =>
            FirewallClient.List cF ListOptsValues Encode FirewallFromSchema
              { ListOpts := { Page := p, PerPage := 50 }, Name := "", Sort_ := [] } tr) traceF)
    ∧ (VolumeClient.AllWithOpts iterPagesV cV ListOptsValues Encode VolumeFromSchema
          optsV traceV
        = iterPagesV (fun p tr =>
            VolumeClient.List cV ListOptsValues Encode VolumeFromSchema
              { ListOpts := { Page := p, PerPage := optsV.ListOpts.PerPage },
                Name := optsV.Name, Status := optsV.Status, Sort_ := optsV.Sort_ } tr) traceV
      ∧ VolumeClient.AllWithOpts.opts optsV page
        = { ListOpts := { Page := page, PerPage := optsV.ListOpts.PerPage },
            Name := optsV.Name, Status := optsV.Status, Sort_ := optsV.Sort_ }
      ∧ (VolumeClient.List cV ListOptsValues Encode VolumeFromSchema
            (VolumeClient.AllWithOpts.opts optsV page) traceV).2
        = traceV ++ [Call.getRequest ("/volumes?" ++ Encode
            (VolumeListOpts.values ListOptsValues
              { ListOpts := { Page := page, PerPage := optsV.ListOpts.PerPage },
                Name := optsV.Name, Status := optsV.Status, Sort_ := optsV.Sort_ }))]
      ∧ VolumeClient.All iterPagesV cV ListOptsValues Encode VolumeFromSchema traceV
        = iterPagesV (fun p tr =>
            VolumeClient.List cV ListOptsValues Encode VolumeFromSchema
              { ListOpts := { Page := p, PerPage := 50 }, Name := "", Status := [],
                Sort_ := [] } tr) traceV) := by
  have hFl : ∀ (o : FirewallListOpts) (tr : Trace BF),
      (FirewallClient.List cF ListOptsValues Encode FirewallFromSchema o tr).2
        = tr ++ [Call.getRequest ("/firewalls?" ++ Encode
            (FirewallListOpts.values ListOptsValues o))] := by
    intro o tr
    unfold FirewallClient.List
    dsimp only
    split <;> rfl
  have hVl : ∀ (o : VolumeListOpts) (tr : Trace BV),
      (VolumeClient.List cV ListOptsValues Encode VolumeFromSchema o tr).2
        = tr ++ [Call.getRequest ("/volumes?" ++ Encode
            (VolumeListOpts.values ListOptsValues o))] := by
    intro o tr
    unfold VolumeClient.List
    dsimp only
    split <;> rfl
  exact ⟨⟨rfl, rfl, hFl _ _, rfl⟩, ⟨rfl, rfl, hVl _ _, rfl⟩⟩

/-! ## Lookup by ID or name -/

/-- C12: `FirewallClient.Get` and `VolumeClient.Get` hand `GetByID`,
`GetByName` and the string to `getByIDOrName`. When the string parses as a
base-10 integer `n` (`"42"` as 42, `"007"` as 7) the lookup is `GetByID` with
`n`; when it does not parse (`"my-volume"`) the lookup is `GetByName` with the
string, and the by-ID function has no part in it: any other by-ID function
gives the same result and trace. -/
theorem Get_dispatches_on_ParseInt {BF SF BV SV : Type}
    (firstByNameF : FirstByName Firewall BF)
    (cGetF : Client BF (schema.FirewallGetResponse SF))
    (cListF : Client BF (schema.FirewallListResponse SF))
    (FirewallFromSchema : SF → Option Firewall) (traceF : Trace BF)
    (firstByNameV : FirstByName Volume BV)
    (cGetV : Client BV (schema.VolumeGetResponse SV))
    (cListV : Client BV (schema.VolumeListResponse SV))
    (VolumeFromSchema : SV → Option Volume) (traceV : Trace BV)
    (ListOptsValues : ListOpts → Values) (Encode : Values → String) (idOrName : String) :
    ((∀ n, ParseInt idOrName = some n →
        FirewallClient.Get firstByNameF cGetF cListF ListOptsValues Encode FirewallFromSchema
            idOrName traceF
          = FirewallClient.GetByID cGetF FirewallFromSchema n traceF)
      ∧ (ParseInt idOrName = none →
        FirewallClient.Get firstByNameF cGetF cListF ListOptsValues Encode FirewallFromSchema
            idOrName traceF
          = FirewallClient.GetByName firstByNameF cListF ListOptsValues Encode
              FirewallFromSchema idOrName traceF
        ∧ ∀ getByID, getByIDOrName getByID
              (FirewallClient.GetByName firstByNameF cListF ListOptsValues Encode
                FirewallFromSchema) idOrName traceF
            = FirewallClient.GetByName firstByNameF cListF ListOptsValues Encode
                FirewallFromSchema idOrName traceF))
    ∧ ((∀ n, ParseInt idOrName = some n →
        VolumeClient.Get firstByNameV cGetV cListV ListOptsValues Encode VolumeFromSchema
            idOrName traceV
          = VolumeClient.GetByID cGetV VolumeFromSchema n traceV)
      ∧ (ParseInt idOrName = none →
        VolumeClient.Get firstByNameV cGetV cListV ListOptsValues Encode VolumeFromSchema
            idOrName traceV
          = VolumeClient.GetByName firstByNameV cListV ListOptsValues Encode
              VolumeFromSchema idOrName traceV
        ∧ ∀ getByID, getByIDOrName getByID
              (VolumeClient.GetByName firstByNameV cListV ListOptsValues Encode
                VolumeFromSchema) idOrName traceV
            = VolumeClient.GetByName firstByNameV cListV ListOptsValues Encode
                VolumeFromSchema idOrName traceV))
    ∧ ParseInt "42" = some 42 ∧ ParseInt "007" = some 7 ∧ ParseInt "my-volume" = none := by
  refine ⟨⟨?_, ?_⟩, ⟨?_, ?_⟩, by decide, by decide, by decide⟩
  · intro n h
    simp only [FirewallClient.Get, getByIDOrName, h]
  · intro h
    refine ⟨?_, fun getByID => ?_⟩
    · simp only [FirewallClient.Get, getByIDOrName, h]
    · simp only [getByIDOrName, h]
  · intro n h
    simp only [VolumeClient.Get, getByIDOrName, h]
  · intro h
    refine ⟨?_, fun getByID => ?_⟩
    · simp only [VolumeClient.Get, getByIDOrName, h]
    · simp only [getByIDOrName, h]

/-- Witness of C12: `"007"` looks a firewall up by the ID 7, `"my-volume"`
looks a volume up by name. -/
theorem Get_dispatches_on_ParseInt_witness :
    FirewallClient.Get sampleFirstByName
        (Client.constant (B := Unit) ({ Firewall := 7 } : schema.FirewallGetResponse Int)
          (some { StatusCode := 200 }) none)
        (Client.constant (B := Unit) ({ Firewalls := [] } : schema.FirewallListResponse Int)
          (some { StatusCode := 200 }) none)
        (fun _ _ => none) (fun _ => "") sampleFirewallFromSchema "007" []
      = FirewallClient.GetByID
        (Client.constant (B := Unit) ({ Firewall := 7 } : schema.FirewallGetResponse Int)
          (some { StatusCode := 200 }) none)
        sampleFirewallFromSchema 7 []
    ∧ VolumeClient.Get sampleFirstByName
        (Client.constant (B := Unit) ({ Volume := 7 } : schema.VolumeGetResponse Int)
          (some { StatusCode := 200 }) none)
        (Client.constant (B := Unit) ({ Volumes := [7] } : schema.VolumeListResponse Int)
          (some { StatusCode := 200 }) none)
        (fun _ _ => none) (fun _ => "") sampleVolumeFromSchema "my-volume" []
      = VolumeClient.GetByName sampleFirstByName
        (Client.constant (B := Unit) ({ Volumes := [7] } : schema.VolumeListResponse Int)
          (some { StatusCode := 200 }) none)
        (fun _ _ => none) (fun _ => "") sampleVolumeFromSchema "my-volume" [] :=
  ⟨(Get_dispatches_on_ParseInt sampleFirstByName
      (Client.constant (B := Unit) ({ Firewall := 7 } : schema.FirewallGetResponse Int)
        (some { StatusCode := 200 }) none)
      (Client.constant (B := Unit) ({ Firewalls := [] } : schema.FirewallListResponse Int)
        (some { StatusCode := 200 }) none)
      sampleFirewallFromSchema []
      sampleFirstByName
      (Client.constant (B := Unit) ({ Volume := 7 } : schema.VolumeGetResponse Int)
        (some { StatusCode := 200 }) none)
      (Client.constant (B := Unit) ({ Volumes := [7] } : schema.VolumeListResponse Int)
        (some { StatusCode := 200 }) none)
      sampleVolumeFromSchema [] (fun _ _ => none) (fun _ => "") "007").1.1 7 (by decide),
   ((Get_dispatches_on_ParseInt sampleFirstByName
      (Client.constant (B := Unit) ({ Firewall := 7 } : schema.FirewallGetResponse Int)
        (some { StatusCode := 200 }) none)
      (Client.constant (B := Unit) ({ Firewalls := [] } : schema.FirewallListResponse Int)
        (some { StatusCode := 200 }) none)
      sampleFirewallFromSchema []
      sampleFirstByName
      (Client.constant (B := Unit) ({ Volume := 7 } : schema.VolumeGetResponse Int)
        (some { StatusCode := 200 }) none)
      (Client.constant (B := Unit) ({ Volumes := [7] } : schema.VolumeListResponse Int)
        (some { StatusCode := 200 }) none)
      sampleVolumeFromSchema [] (fun _ _ => none) (fun _ => "")
      "my-volume").2.1.2 (by decide)).1⟩

/-! ## Placement fields of the volume create request -/

/-- Options that pass `Validate` have exactly one of server and location. -/
theorem VolumeCreateOpts.Validate_nil_one_placement (o : VolumeCreateOpts)
    (h : o.Validate = none) :
    (o.Server ≠ none ∧ o.Location = none) ∨ (o.Server = none ∧ o.Location ≠ none) := by
  unfold VolumeCreateOpts.Validate at h
  by_cases hn : o.Name = "" <;> by_cases hsz : o.Size ≤ 0 <;>
    by_cases hsv : o.Server = none <;> by_cases hl : o.Location = none <;> simp_all

/-- C13, as stated, fails: options with a location that has ID 0 and an empty
name pass `Validate`, and the request body built from them has neither
`server` nor `location` set. -/
theorem VolumeClient_Create_reqBody_placement_counterexample :
    sampleVolumeZeroLocation.Validate = none
    ∧ (VolumeClient.Create.reqBody sampleVolumeZeroLocation).Server = none
    ∧ (VolumeClient.Create.reqBody sampleVolumeZeroLocation).Location = none := by
  decide

/-- C13, amended: for options that pass `Validate`, the request body built by
`VolumeClient.Create` never has both placement fields set. With a server it
has `server` equal to the ID of the server and no `location`; with a location
of non-zero ID or non-empty name it has `location` carrying that ID and name
and no `server`; with a location of ID 0 and empty name it has neither. That
body is what `Create` encodes and passes to `NewRequest` for `POST /volumes`. -/
theorem VolumeClient_Create_reqBody_placement {SV SA A : Type}
    (c : Client schema.VolumeCreateRequest (schema.VolumeCreateResponse SV SA))
    (VolumeFromSchema : SV → Option Volume) (ActionFromSchema : SA → Option A)
    (ActionsFromSchema : Slice SA → Slice (Option A))
    (trace : Trace schema.VolumeCreateRequest)
    (opts : VolumeCreateOpts) (hValid : opts.Validate = none) :
    ¬ ((VolumeClient.Create.reqBody opts).Server ≠ none
        ∧ (VolumeClient.Create.reqBody opts).Location ≠ none)
    ∧ (∀ server, opts.Server = some server →
        (VolumeClient.Create.reqBody opts).Server = some server.ID
        ∧ (VolumeClient.Create.reqBody opts).Location = none)
    ∧ (∀ location, opts.Location = some location →
        location.ID ≠ 0 ∨ location.Name ≠ "" →
        (VolumeClient.Create.reqBody opts).Location
            = some { ID := location.ID, Name := location.Name }
        ∧ (VolumeClient.Create.reqBody opts).Server = none)
    ∧ (∀ location, opts.Location = some location →
        location.ID = 0 → location.Name = "" →
        (VolumeClient.Create.reqBody opts).Server = none
        ∧ (VolumeClient.Create.reqBody opts).Location = none)
    ∧ (∀ data, c.Marshal (VolumeClient.Create.reqBody opts) = Except.ok data →
        ∃ rest, (VolumeClient.Create c VolumeFromSchema ActionFromSchema ActionsFromSchema
            opts trace).2
          = trace ++ Call.NewRequest "POST" "/volumes" (some data) :: rest) := by
  have hp := VolumeCreateOpts.Validate_nil_one_placement opts hValid
  have hCreate : ∀ data, c.Marshal (VolumeClient.Create.reqBody opts) = Except.ok data →
      ∃ rest, (VolumeClient.Create c VolumeFromSchema ActionFromSchema ActionsFromSchema
          opts trace).2
        = trace ++ Call.NewRequest "POST" "/volumes" (some data) :: rest := by
    intro data hm
    unfold VolumeClient.Create
    simp only [hValid, hm]
    cases c.NewRequest trace "POST" "/volumes" (some data) with
    | error err => exact ⟨[], rfl⟩
    | ok req =>
      dsimp only
      split <;> exact ⟨[Call.Do req], by simp⟩
  rcases opts with ⟨name, size, server, location, labels, automount, format⟩
  rcases hp with ⟨hs, hl⟩ | ⟨hs, hl⟩
  · simp only at hs hl
    subst hl
    obtain ⟨sv, rfl⟩ := Option.ne_none_iff_exists'.mp hs
    refine ⟨?_, ?_, ?_, ?_, hCreate⟩
    · cases labels <;> simp [VolumeClient.Create.reqBody]
    · intro server h
      cases labels <;> simp_all [VolumeClient.Create.reqBody]
    · intro location h
      simp at h
    · intro location h
      simp at h
  · simp only at hs hl
    subst hs
    obtain ⟨loc, rfl⟩ := Option.ne_none_iff_exists'.mp hl
    refine ⟨?_, ?_, ?_, ?_, hCreate⟩
    · cases labels <;> simp [VolumeClient.Create.reqBody] <;> split <;> simp
    · intro server h
      simp at h
    · intro location h hnz
      simp at h
      subst h
      cases labels <;> simp [VolumeClient.Create.reqBody] <;> split <;> simp_all
    · intro location h hid hname
      simp at h
      subst h
      cases labels <;> simp [VolumeClient.Create.reqBody, hid, hname]

/-- Witness of the amended C13: a volume on server 5 and a volume in the
location with ID 2 and name fsn1. -/
theorem VolumeClient_Create_reqBody_placement_witness :
    sampleVolumeOnServer.Validate = none
    ∧ ((VolumeClient.Create.reqBody sampleVolumeOnServer).Server = some 5
      ∧ (VolumeClient.Create.reqBody sampleVolumeOnServer).Location = none)
    ∧ sampleVolumeNoAutomount.Validate = none
    ∧ ((VolumeClient.Create.reqBody sampleVolumeNoAutomount).Location
          = some { ID := 2, Name := "fsn1" }
      ∧ (VolumeClient.Create.reqBody sampleVolumeNoAutomount).Server = none) :=
  ⟨by decide,
   (VolumeClient_Create_reqBody_placement
      (Client.constant
        ({ Volume := (), Action := none, NextActions := [] } :
          schema.VolumeCreateResponse Unit Unit) (some { StatusCode := 201 }) none)
      (fun _ => none) (fun _ => (none : Option Unit)) (fun _ => [])
      [] sampleVolumeOnServer (by decide)).2.1 { ID := 5 } rfl,
   by decide,
   (VolumeClient_Create_reqBody_placement
      (Client.constant
        ({ Volume := (), Action := none, NextActions := [] } :
          schema.VolumeCreateResponse Unit Unit) (some { StatusCode := 201 }) none)
      (fun _ => none) (fun _ => (none : Option Unit)) (fun _ => [])
      [] sampleVolumeNoAutomount (by decide)).2.2.1 { ID := 2, Name := "fsn1" } rfl
      (Or.inl (by decide))⟩

end hcloud
